import Mathlib

/-!
# Shallow embedding of the TelemetryFlow Python SDK session core

This file embeds, in Lean 4, the parts of the `telemetryflow` Python SDK
that the verified claims are about:

* `telemetryflow/domain/config.py` — `TelemetryConfig` validation;
* `telemetryflow/application/commands.py` — command objects, their
  construction-time validation, and `CommandBus`;
* `telemetryflow/infrastructure/handlers.py` — `TelemetryCommandHandler`
  (the session core): initialize / shutdown / flush, metric recording with
  instrument caching, span lifecycle, and attribute conversion;
* `telemetryflow/client.py` — the `TelemetryFlowClient` facade.

Python exceptions are modelled with `Except`; calls into external
collaborators (the OpenTelemetry providers, meters, tracers and span
objects) are modelled as an emitted list of `Event`s, and the points where
those collaborators may throw are modelled by environment records whose
fields say which external call fails and with which message.  Python dicts
used as key/value maps are modelled by association lists (for the caches
and the span registry, where iteration order is observable) or by functions
(for the `CommandBus` registry).
-/

namespace TelemetryFlow

/-- Python exception values that the embedded code can raise or propagate.
`external` is an exception raised by an external collaborator (an OTEL
provider or exporter) and carries its message. -/
inductive PyErr where
  | valueError (msg : String)
  | runtimeError (msg : String)
  | configError (msg : String)
  | notInitializedError (msg : String)
  | telemetryFlowError (msg : String)
  | external (msg : String)
deriving Repr, DecidableEq

/-- `s` occurs as a contiguous substring of `t`. -/
def ContainsSub (t s : String) : Prop := ∃ a b : String, t = a ++ s ++ b

/-! ## TelemetryConfig (`domain/config.py`)

Only the fields that the validation in `TelemetryConfig._validate` and the
initialization path in the handler read are embedded.  `timeout` is a
Python `timedelta`; the validator reads `timeout.total_seconds()`, a real
number, embedded as `Rat` (no arithmetic is performed on it beyond the
comparison with `0`). -/

structure TelemetryConfig where
  endpoint : String
  service_name : String
  timeout_total_seconds : Rat := 30
  max_retries : Int := 3
  batch_max_size : Int := 512
  rate_limit : Int := 1000
  enable_metrics : Bool := true
  enable_traces : Bool := true
deriving Repr, DecidableEq

namespace TelemetryConfig

/-- The list of violation descriptions collected by
`TelemetryConfig._validate`, in source order. -/
def validationErrors (c : TelemetryConfig) : List String :=
  (if c.endpoint = "" then ["Endpoint is required"] else []) ++
  (if c.service_name = "" then ["Service name is required"] else []) ++
  (if c.timeout_total_seconds ≤ 0 then ["Timeout must be positive"] else []) ++
  (if c.max_retries < 0 then ["Max retries must be non-negative"] else []) ++
  (if c.batch_max_size ≤ 0 then ["Batch max size must be positive"] else []) ++
  (if c.rate_limit ≤ 0 then ["Rate limit must be positive"] else [])

/-- `TelemetryConfig._validate`, run by `__post_init__`: collect all
violations and raise a single `ConfigError` joining them with `"; "`,
or return normally when there are none. -/
def validate (c : TelemetryConfig) : Except PyErr Unit :=
  let errors := c.validationErrors
  if errors.isEmpty then Except.ok ()
  else Except.error (PyErr.configError (String.intercalate "; " errors))

end TelemetryConfig

/-! ## Python attribute values and `_convert_attributes`

`_convert_attributes` receives a `dict[str, Any]`.  A Python value is
embedded by `PyVal`: the four primitive scalar types checked by
`isinstance(value, (str, bool, int, float))`, lists and tuples, and
`other`, covering every remaining runtime value (`None`, dicts, custom
objects); `other` carries the string produced by Python `str(value)`,
since that string is the only thing the conversion ever reads from such a
value.  Floats are carried inertly (the code never computes with them), as
`Rat`. -/

inductive PyVal where
  | str (s : String)
  | bool (b : Bool)
  | int (n : Int)
  | float (x : Rat)
  | list (xs : List PyVal)
  | tuple (xs : List PyVal)
  | other (string_repr : String)

/-- A primitive scalar as accepted by the OpenTelemetry attribute model:
the result of a successful `isinstance(value, (str, bool, int, float))`
check. -/
inductive Prim where
  | str (s : String)
  | bool (b : Bool)
  | int (n : Int)
  | float (x : Rat)
deriving Repr, DecidableEq

/-- An OpenTelemetry-compatible attribute value as produced by
`_convert_attributes`: a primitive scalar, a list of primitive scalars, or
a string (for converted non-primitive values). -/
inductive AttrVal where
  | prim (p : Prim)
  | seq (xs : List Prim)
deriving Repr, DecidableEq

/-- `isinstance(value, (str, bool, int, float))`, returning the witnessing
primitive. -/
def PyVal.toPrim : PyVal → Option Prim
  | PyVal.str s => some (Prim.str s)
  | PyVal.bool b => some (Prim.bool b)
  | PyVal.int n => some (Prim.int n)
  | PyVal.float x => some (Prim.float x)
  | _ => none

/-- Python `str(value)` for the values `_convert_attributes` may apply it
to (the non-primitive, non-sequence ones, which carry their own string
representation). For the remaining constructors the function is defined
but never reached by the conversion. -/
def PyVal.pyStr : PyVal → String
  | PyVal.str s => s
  | PyVal.bool b => if b then "True" else "False"
  | PyVal.int n => toString n
  | PyVal.float x => toString x
  | PyVal.list _ => "[...]"
  | PyVal.tuple _ => "(...)"
  | PyVal.other r => r

/-- The per-value conversion applied by `_convert_attributes` to each
dict value: primitives pass through; lists and tuples keep exactly their
primitive elements (`[v for v in value if isinstance(v, (str, bool, int,
float))]`); everything else becomes `str(value)`. -/
def convertValue (v : PyVal) : AttrVal :=
  match v.toPrim with
  | some p => AttrVal.prim p
  | none =>
    match v with
    | PyVal.list xs => AttrVal.seq (xs.filterMap PyVal.toPrim)
    | PyVal.tuple xs => AttrVal.seq (xs.filterMap PyVal.toPrim)
    | w => AttrVal.prim (Prim.str w.pyStr)

/-- `TelemetryCommandHandler._convert_attributes`: build the result dict
by converting each value, keeping keys and their order. -/
def convert_attributes (attributes : List (String × PyVal)) :
    List (String × AttrVal) :=
  attributes.map (fun kv => (kv.1, convertValue kv.2))

/-! ## Association-list model of the Python dicts whose contents the core
mutates (`_active_spans`, and the `attrs` dict in `_handle_emit_log`). -/

/-- `d.get(k)` / `d[k]` lookup on a dict modelled as an association list. -/
def listGet (k : String) : List (String × α) → Option α
  | [] => none
  | kv :: rest => if kv.1 = k then some kv.2 else listGet k rest

/-- `d[k] = v` on a dict modelled as an association list: replace the value
under an existing key in place, or append a new binding. -/
def listSet (k : String) (v : α) : List (String × α) → List (String × α)
  | [] => [(k, v)]
  | kv :: rest => if kv.1 = k then (k, v) :: rest else kv :: listSet k v rest

/-- Key removal, as performed by `d.pop(k, None)` (a dict never holds a key
twice; on an association list with unique keys the filter removes exactly
that binding, and on an absent key it is the identity). -/
def listErase (k : String) (l : List (String × α)) : List (String × α) :=
  l.filter (fun kv => ¬ kv.1 = k)

/-! ## Commands (`application/commands.py`)

Each Python command dataclass also carries a creation `timestamp` that no
handler ever reads; it is omitted.  The `__post_init__` validation of each
dataclass is embedded as a fallible smart constructor `mk?`.  A Python
exception object attached to a command (`EndSpanCommand.error`) is
represented by `str(e)`, the only thing the code reads from it (both for
`Status` and for `record_exception`); an `Exception` instance is always
truthy, so `if command.error:` is its `isSome`. -/

inductive SeverityLevel where
  | trace | debug | info | warn | error | fatal
deriving Repr, DecidableEq

/-- The `.value` string of a `SeverityLevel` member. -/
def SeverityLevel.value : SeverityLevel → String
  | .trace => "trace"
  | .debug => "debug"
  | .info => "info"
  | .warn => "warn"
  | .error => "error"
  | .fatal => "fatal"

inductive SpanKind where
  | internal | server | client | producer | consumer
deriving Repr, DecidableEq

/-- `opentelemetry.trace.SpanKind` as far as the handler uses it. -/
inductive OTELSpanKind where
  | internal | server | client | producer | consumer
deriving Repr, DecidableEq

structure InitializeSDKCommand where
  config : TelemetryConfig
deriving Repr, DecidableEq

structure ShutdownSDKCommand where
  timeout_seconds : Rat := 30
deriving Repr, DecidableEq

structure FlushTelemetryCommand where
deriving Repr, DecidableEq

structure RecordMetricCommand where
  name : String := ""
  value : Rat := 0
  unit : String := ""
  attributes : List (String × PyVal) := []

/-- `RecordMetricCommand.__post_init__`: `name` must be non-empty. -/
def RecordMetricCommand.mk? (name : String) (value : Rat) (unit : String)
    (attributes : List (String × PyVal)) : Except PyErr RecordMetricCommand :=
  if name = "" then
    Except.error (PyErr.valueError "name is required for RecordMetricCommand")
  else Except.ok { name := name, value := value, unit := unit, attributes := attributes }

structure RecordCounterCommand where
  name : String := ""
  value : Int := 1
  attributes : List (String × PyVal) := []

/-- `RecordCounterCommand.__post_init__`: `name` must be non-empty. -/
def RecordCounterCommand.mk? (name : String) (value : Int)
    (attributes : List (String × PyVal)) : Except PyErr RecordCounterCommand :=
  if name = "" then
    Except.error (PyErr.valueError "name is required for RecordCounterCommand")
  else Except.ok { name := name, value := value, attributes := attributes }

structure RecordGaugeCommand where
  name : String := ""
  value : Rat := 0
  attributes : List (String × PyVal) := []

/-- `RecordGaugeCommand.__post_init__`: `name` must be non-empty. -/
def RecordGaugeCommand.mk? (name : String) (value : Rat)
    (attributes : List (String × PyVal)) : Except PyErr RecordGaugeCommand :=
  if name = "" then
    Except.error (PyErr.valueError "name is required for RecordGaugeCommand")
  else Except.ok { name := name, value := value, attributes := attributes }

structure RecordHistogramCommand where
  name : String := ""
  value : Rat := 0
  unit : String := ""
  attributes : List (String × PyVal) := []

/-- `RecordHistogramCommand.__post_init__`: `name` must be non-empty. -/
def RecordHistogramCommand.mk? (name : String) (value : Rat) (unit : String)
    (attributes : List (String × PyVal)) : Except PyErr RecordHistogramCommand :=
  if name = "" then
    Except.error (PyErr.valueError "name is required for RecordHistogramCommand")
  else Except.ok { name := name, value := value, unit := unit, attributes := attributes }

structure EmitLogCommand where
  message : String := ""
  severity : SeverityLevel := SeverityLevel.info
  attributes : List (String × PyVal) := []

/-- `EmitLogCommand.__post_init__`: `message` must be non-empty. -/
def EmitLogCommand.mk? (message : String) (severity : SeverityLevel)
    (attributes : List (String × PyVal)) : Except PyErr EmitLogCommand :=
  if message = "" then
    Except.error (PyErr.valueError "message is required for EmitLogCommand")
  else Except.ok { message := message, severity := severity, attributes := attributes }

structure EmitBatchLogsCommand where
  logs : List EmitLogCommand := []

structure StartSpanCommand where
  name : String := ""
  kind : SpanKind := SpanKind.internal
  attributes : List (String × PyVal) := []

/-- `StartSpanCommand.__post_init__`: `name` must be non-empty. -/
def StartSpanCommand.mk? (name : String) (kind : SpanKind)
    (attributes : List (String × PyVal)) : Except PyErr StartSpanCommand :=
  if name = "" then
    Except.error (PyErr.valueError "name is required for StartSpanCommand")
  else Except.ok { name := name, kind := kind, attributes := attributes }

structure EndSpanCommand where
  span_id : String := ""
  error : Option String := none
deriving Repr, DecidableEq

/-- `EndSpanCommand.__post_init__`: `span_id` must be non-empty. -/
def EndSpanCommand.mk? (span_id : String) (error : Option String) :
    Except PyErr EndSpanCommand :=
  if span_id = "" then
    Except.error (PyErr.valueError "span_id is required for EndSpanCommand")
  else Except.ok { span_id := span_id, error := error }

structure AddSpanEventCommand where
  span_id : String := ""
  name : String := ""
  attributes : List (String × PyVal) := []

/-- `AddSpanEventCommand.__post_init__`: `span_id`, then `name`, must be
non-empty. -/
def AddSpanEventCommand.mk? (span_id : String) (name : String)
    (attributes : List (String × PyVal)) : Except PyErr AddSpanEventCommand :=
  if span_id = "" then
    Except.error (PyErr.valueError "span_id is required for AddSpanEventCommand")
  else if name = "" then
    Except.error (PyErr.valueError "name is required for AddSpanEventCommand")
  else Except.ok { span_id := span_id, name := name, attributes := attributes }

/-! ## Session core state (`TelemetryCommandHandler.__init__`)

Fields holding external objects (`_tracer_provider`, `_meter`, ...) are
embedded as `Bool` presence flags (`is not None`); the instrument caches,
whose values are external instrument handles retrieved only to call back
into, as the list of cached names (dict keys).  `_start_time` uses an
abstract clock reading `Nat`.  The status counter and span-registry fields
keep their source names. -/

inductive SpanStatus where
  | ok
  | error (description : String)
deriving Repr, DecidableEq

/-- The data the handler passed to `tracer.start_span` for a live span in
`_active_spans` (the handle itself is external; span mutations appear as
events). -/
structure StartedSpan where
  name : String
  kind : OTELSpanKind
  attributes : List (String × AttrVal)
deriving Repr, DecidableEq

/-- One observable call into an external collaborator (OTEL providers,
meter instruments, span handles, the module logger). -/
inductive Event where
  | createResource
  | createTraceExporter
  | createMetricExporter
  | tracerForceFlush (timeout_millis : Option Int)
  | tracerShutdown
  | meterForceFlush
  | meterShutdown (timeout_millis : Int)
  | createCounter (name description : String)
  | createUpDownCounter (name description : String)
  | createHistogram (name unit description : String)
  | counterAdd (name : String) (value : Int) (attrs : List (String × AttrVal))
  | upDownCounterAdd (name : String) (value : Rat) (attrs : List (String × AttrVal))
  | histogramRecord (name : String) (value : Rat) (attrs : List (String × AttrVal))
  | spanStart (name : String) (kind : OTELSpanKind) (attrs : List (String × AttrVal))
  | spanSetStatus (span_id : String) (status : SpanStatus)
  | spanRecordException (span_id : String) (msg : String)
  | spanEnd (span_id : String)
  | spanAddEvent (span_id : String) (name : String) (attrs : List (String × AttrVal))
  | currentSpanAddEvent (message : String) (attrs : List (String × AttrVal))
  | logWarning (msg : String)
  | logInfo (msg : String)
  | logError (msg : String)
deriving Repr, DecidableEq

/-- Does this event create a metric instrument via the meter
(`create_counter` / `create_up_down_counter` / `create_histogram`)?  Used
as the "spy on the creation hook" when counting instrument creations. -/
def Event.isInstrumentCreation : Event → Bool
  | Event.createCounter _ _ => true
  | Event.createUpDownCounter _ _ => true
  | Event.createHistogram _ _ _ => true
  | _ => false

structure TelemetryCommandHandler where
  config : Option TelemetryConfig := none
  initialized : Bool := false
  tracer_provider : Bool := false
  meter_provider : Bool := false
  tracer : Bool := false
  meter : Bool := false
  exporter_factory : Bool := false
  span_processor : Bool := false
  metric_reader : Bool := false
  active_spans : List (String × StartedSpan) := []
  counters : List String := []
  histograms : List String := []
  gauges : List String := []
  start_time : Option Nat := none
  metrics_sent : Nat := 0
  logs_sent : Nat := 0
  spans_sent : Nat := 0
deriving Repr, DecidableEq

/-! ## Environments: where external collaborators may throw

Every external call the handler makes inside a `try` block — or outside
one, in which case the exception propagates — is given a slot saying
whether that call raises and with which message. -/

/-- Failure oracle for the external calls made during
`_handle_initialize` / `_init_tracer` / `_init_meter`. -/
structure InitEnv where
  factory_init_raises : Option String := none
  create_resource_raises : Option String := none
  create_trace_exporter_raises : Option String := none
  create_metric_exporter_raises : Option String := none
deriving Repr, DecidableEq

/-- Failure oracle for the external calls made during `_handle_shutdown`. -/
structure ShutdownEnv where
  tracer_flush_raises : Option String := none
  tracer_shutdown_raises : Option String := none
  meter_shutdown_raises : Option String := none
deriving Repr, DecidableEq

/-- Failure oracle for the external calls made during `_handle_flush`. -/
structure FlushEnv where
  tracer_flush_raises : Option String := none
  meter_flush_raises : Option String := none
deriving Repr, DecidableEq

/-- Ambient OTEL state read by `_handle_emit_log`
(`trace.get_current_span().is_recording()`). -/
structure LogEnv where
  current_span_recording : Bool := false
deriving Repr, DecidableEq

/-- The span id produced by `str(uuid.uuid4())` in `_handle_start_span`. -/
structure StartSpanEnv where
  fresh_span_id : String := "00000000-0000-0000-0000-000000000000"
deriving Repr, DecidableEq

/-- One bundle of all external nondeterminism for a single handled
command, plus the clock reading used for `datetime.now(UTC)`. -/
structure Env where
  init : InitEnv := {}
  shutdownEnv : ShutdownEnv := {}
  flushEnv : FlushEnv := {}
  log : LogEnv := {}
  span : StartSpanEnv := {}
  now : Nat := 0
deriving Repr, DecidableEq

/-- Python `int(q * 1000)` on a non-negative `total_seconds()` value:
truncation toward zero. -/
def pyIntMillis (q : Rat) : Int :=
  Int.tdiv (q * 1000).num (q * 1000).den

/-- Python `str(e)` of an embedded exception. -/
def PyErr.message : PyErr → String
  | PyErr.valueError m => m
  | PyErr.runtimeError m => m
  | PyErr.configError m => m
  | PyErr.notInitializedError m => m
  | PyErr.telemetryFlowError m => m
  | PyErr.external m => m

/-! ## The handler methods (`infrastructure/handlers.py`)

Each method becomes a function from the handler state to
`Except PyErr α × TelemetryCommandHandler × List Event`: the normal or
exceptional outcome, the state after the call (Python has no rollback, so
mutations made before a raise persist), and the external calls made, in
order. -/

/-- Outcome, post-state and emitted external calls of one handler method. -/
abbrev HRes (α : Type) := Except PyErr α × TelemetryCommandHandler × List Event

namespace TelemetryCommandHandler

/-- `TelemetryCommandHandler._convert_span_kind`. -/
def convert_span_kind (kind : SpanKind) : OTELSpanKind :=
  match kind with
  | SpanKind.internal => OTELSpanKind.internal
  | SpanKind.server => OTELSpanKind.server
  | SpanKind.client => OTELSpanKind.client
  | SpanKind.producer => OTELSpanKind.producer
  | SpanKind.consumer => OTELSpanKind.consumer

/-- `TelemetryCommandHandler._init_tracer`: create the trace exporter (a
failure propagates, leaving the provider fields unassigned), then install
the span processor, tracer provider and tracer. -/
def init_tracer (env : InitEnv) (h : TelemetryCommandHandler) : HRes Unit :=
  if ¬h.exporter_factory ∨ h.config = none then (Except.ok (), h, [])
  else
    match env.create_trace_exporter_raises with
    | some m => (Except.error (PyErr.external m), h, [Event.createTraceExporter])
    | none =>
      (Except.ok (),
       { h with span_processor := true, tracer_provider := true, tracer := true },
       [Event.createTraceExporter])

/-- `TelemetryCommandHandler._init_meter`: create the metric exporter (a
failure propagates, leaving the provider fields unassigned), then install
the metric reader, meter provider and meter. -/
def init_meter (env : InitEnv) (h : TelemetryCommandHandler) : HRes Unit :=
  if ¬h.exporter_factory ∨ h.config = none then (Except.ok (), h, [])
  else
    match env.create_metric_exporter_raises with
    | some m => (Except.error (PyErr.external m), h, [Event.createMetricExporter])
    | none =>
      (Except.ok (),
       { h with metric_reader := true, meter_provider := true, meter := true },
       [Event.createMetricExporter])

/-- `TelemetryCommandHandler._handle_initialize`: early return when already
initialized; otherwise assign the config, build the exporter factory and
resource, initialize tracer and meter per enabled signal, then mark the
handler initialized and record the start time.  Exceptions from any
external call propagate with whatever was assigned so far kept. -/
def handle_initialize (env : InitEnv) (now : Nat) (command : InitializeSDKCommand)
    (h : TelemetryCommandHandler) : HRes Unit :=
  if h.initialized then
    (Except.ok (), h, [Event.logWarning "SDK already initialized"])
  else
    let h := { h with config := some command.config }
    match env.factory_init_raises with
    | some m => (Except.error (PyErr.external m), h, [])
    | none =>
      let h := { h with exporter_factory := true }
      match env.create_resource_raises with
      | some m => (Except.error (PyErr.external m), h, [Event.createResource])
      | none =>
        let evs0 := [Event.createResource]
        let (r1, h, evs1) :=
          if command.config.enable_traces then init_tracer env h
          else (Except.ok (), h, [])
        match r1 with
        | Except.error e => (Except.error e, h, evs0 ++ evs1)
        | Except.ok _ =>
          let (r2, h, evs2) :=
            if command.config.enable_metrics then init_meter env h
            else (Except.ok (), h, [])
          match r2 with
          | Except.error e => (Except.error e, h, evs0 ++ evs1 ++ evs2)
          | Except.ok _ =>
            let sname := command.config.service_name
            (Except.ok (),
             { h with initialized := true, start_time := some now },
             evs0 ++ evs1 ++ evs2 ++
               [Event.logInfo
                 s!"TelemetryFlow SDK initialized for service {sname}"])

/-- `TelemetryCommandHandler._handle_shutdown`: no-op when not
initialized; otherwise flush and shut down the tracer provider under one
`try`, shut down the meter provider under a second independent `try`,
collect the exceptions, clear the active spans, drop the initialized flag,
and finally raise one `RuntimeError` naming the error count when any
pipeline operation failed. -/
def handle_shutdown (env : ShutdownEnv) (command : ShutdownSDKCommand)
    (h : TelemetryCommandHandler) : HRes Unit :=
  if ¬h.initialized then (Except.ok (), h, [])
  else
    let tmillis := pyIntMillis command.timeout_seconds
    let tracerFailures :=
      if h.tracer_provider then
        match env.tracer_flush_raises with
        | some m => ([m], [Event.tracerForceFlush (some tmillis),
                           Event.logError s!"Error shutting down tracer provider: {m}"])
        | none =>
          match env.tracer_shutdown_raises with
          | some m => ([m], [Event.tracerForceFlush (some tmillis), Event.tracerShutdown,
                             Event.logError s!"Error shutting down tracer provider: {m}"])
          | none => ([], [Event.tracerForceFlush (some tmillis), Event.tracerShutdown])
      else (([] : List String), ([] : List Event))
    let meterFailures :=
      if h.meter_provider then
        match env.meter_shutdown_raises with
        | some m => ([m], [Event.meterShutdown tmillis,
                           Event.logError s!"Error shutting down meter provider: {m}"])
        | none => ([], [Event.meterShutdown tmillis])
      else (([] : List String), ([] : List Event))
    let errors := tracerFailures.1 ++ meterFailures.1
    let h := { h with active_spans := [], initialized := false }
    let evs := tracerFailures.2 ++ meterFailures.2 ++
      [Event.logInfo "TelemetryFlow SDK shut down"]
    if errors.isEmpty then (Except.ok (), h, evs)
    else
      let n := errors.length
      (Except.error (PyErr.runtimeError s!"Shutdown completed with {n} error(s)"), h, evs)

/-- `TelemetryCommandHandler._handle_flush`: no-op when not initialized;
otherwise force-flush the tracer provider then the meter provider, with no
`try` around either (an exception propagates and skips the rest). -/
def handle_flush (env : FlushEnv) (_command : FlushTelemetryCommand)
    (h : TelemetryCommandHandler) : HRes Unit :=
  if ¬h.initialized then (Except.ok (), h, [])
  else
    let evs1 := if h.tracer_provider then [Event.tracerForceFlush none] else []
    match (if h.tracer_provider then env.tracer_flush_raises else none) with
    | some m => (Except.error (PyErr.external m), h, evs1)
    | none =>
      let evs2 := if h.meter_provider then [Event.meterForceFlush] else []
      match (if h.meter_provider then env.meter_flush_raises else none) with
      | some m => (Except.error (PyErr.external m), h, evs1 ++ evs2)
      | none => (Except.ok (), h, evs1 ++ evs2)

/-- `TelemetryCommandHandler._handle_record_counter`: silent no-op unless
initialized with a meter; create and cache the counter on first use of the
name, then add the value with converted attributes and bump
`_metrics_sent`. -/
def handle_record_counter (command : RecordCounterCommand)
    (h : TelemetryCommandHandler) : HRes Unit :=
  if ¬h.initialized ∨ ¬h.meter then (Except.ok (), h, [])
  else
    let name := command.name
    let (counters, createEvs) :=
      if name ∈ h.counters then (h.counters, [])
      else (h.counters ++ [name], [Event.createCounter name s!"Counter for {name}"])
    let attrs := convert_attributes command.attributes
    (Except.ok (),
     { h with counters := counters, metrics_sent := h.metrics_sent + 1 },
     createEvs ++ [Event.counterAdd name command.value attrs])

/-- `TelemetryCommandHandler._handle_record_gauge`: silent no-op unless
initialized with a meter; create and cache the up/down counter on first
use of the name, then add the value with converted attributes and bump
`_metrics_sent`. -/
def handle_record_gauge (command : RecordGaugeCommand)
    (h : TelemetryCommandHandler) : HRes Unit :=
  if ¬h.initialized ∨ ¬h.meter then (Except.ok (), h, [])
  else
    let name := command.name
    let (gauges, createEvs) :=
      if name ∈ h.gauges then (h.gauges, [])
      else (h.gauges ++ [name], [Event.createUpDownCounter name s!"Gauge for {name}"])
    let attrs := convert_attributes command.attributes
    (Except.ok (),
     { h with gauges := gauges, metrics_sent := h.metrics_sent + 1 },
     createEvs ++ [Event.upDownCounterAdd name command.value attrs])

/-- `TelemetryCommandHandler._handle_record_histogram`: silent no-op unless
initialized with a meter; create and cache the histogram (unit
`command.unit or "1"`) on first use of the name, then record the value
with converted attributes and bump `_metrics_sent`. -/
def handle_record_histogram (command : RecordHistogramCommand)
    (h : TelemetryCommandHandler) : HRes Unit :=
  if ¬h.initialized ∨ ¬h.meter then (Except.ok (), h, [])
  else
    let name := command.name
    let unit := if command.unit = "" then "1" else command.unit
    let (histograms, createEvs) :=
      if name ∈ h.histograms then (h.histograms, [])
      else (h.histograms ++ [name],
            [Event.createHistogram name unit s!"Histogram for {name}"])
    let attrs := convert_attributes command.attributes
    (Except.ok (),
     { h with histograms := histograms, metrics_sent := h.metrics_sent + 1 },
     createEvs ++ [Event.histogramRecord name command.value attrs])

/-- `TelemetryCommandHandler._handle_record_metric`: silent no-op unless
initialized with a meter; otherwise delegate to the gauge handler through
a freshly constructed `RecordGaugeCommand` (whose `__post_init__`
validation runs), then bump `_metrics_sent` once more itself. -/
def handle_record_metric (command : RecordMetricCommand)
    (h : TelemetryCommandHandler) : HRes Unit :=
  if ¬h.initialized ∨ ¬h.meter then (Except.ok (), h, [])
  else
    match RecordGaugeCommand.mk? command.name command.value command.attributes with
    | Except.error e => (Except.error e, h, [])
    | Except.ok gaugeCommand =>
      match handle_record_gauge gaugeCommand h with
      | (Except.error e, h, evs) => (Except.error e, h, evs)
      | (Except.ok _, h, evs) =>
        (Except.ok (), { h with metrics_sent := h.metrics_sent + 1 }, evs)

/-- `TelemetryCommandHandler._handle_emit_log`: no-op when not
initialized; otherwise, when a tracer exists and the ambient current span
is recording, add the message as a span event carrying the converted
attributes plus `log.severity`; bump `_logs_sent` in both cases. -/
def handle_emit_log (env : LogEnv) (command : EmitLogCommand)
    (h : TelemetryCommandHandler) : HRes Unit :=
  if ¬h.initialized then (Except.ok (), h, [])
  else
    let evs :=
      if h.tracer ∧ env.current_span_recording then
        let attrs := listSet "log.severity"
          (AttrVal.prim (Prim.str command.severity.value))
          (convert_attributes command.attributes)
        [Event.currentSpanAddEvent command.message attrs]
      else []
    (Except.ok (), { h with logs_sent := h.logs_sent + 1 }, evs)

/-- `TelemetryCommandHandler._handle_emit_batch_logs`: emit each log in
order. -/
def handle_emit_batch_logs (env : LogEnv) (logs : List EmitLogCommand)
    (h : TelemetryCommandHandler) : HRes Unit :=
  match logs with
  | [] => (Except.ok (), h, [])
  | c :: rest =>
    let (_, h1, evs1) := handle_emit_log env c h
    let (r, h2, evs2) := handle_emit_batch_logs env rest h1
    (r, h2, evs1 ++ evs2)

/-- `TelemetryCommandHandler._handle_start_span`: returns `""` (not an
error) unless initialized with a tracer; otherwise starts the span with
converted kind and attributes, registers it under a fresh uuid, bumps
`_spans_sent` and returns the id. -/
def handle_start_span (env : StartSpanEnv) (command : StartSpanCommand)
    (h : TelemetryCommandHandler) : HRes String :=
  if ¬h.initialized ∨ ¬h.tracer then (Except.ok "", h, [])
  else
    let otelKind := convert_span_kind command.kind
    let attrs := convert_attributes command.attributes
    let span_id := env.fresh_span_id
    (Except.ok span_id,
     { h with
        active_spans := listSet span_id
          { name := command.name, kind := otelKind, attributes := attrs }
          h.active_spans,
        spans_sent := h.spans_sent + 1 },
     [Event.spanStart command.name otelKind attrs])

/-- `TelemetryCommandHandler._handle_end_span`: pop the span from the
registry; when absent, log a warning and return (never an error); when
present, set ERROR status carrying `str(error)` and record the exception
when an error was supplied, else set OK status, then end the span. -/
def handle_end_span (command : EndSpanCommand)
    (h : TelemetryCommandHandler) : HRes Unit :=
  let sid := command.span_id
  let span := listGet sid h.active_spans
  let h := { h with active_spans := listErase sid h.active_spans }
  match span with
  | none => (Except.ok (), h, [Event.logWarning s!"Span not found: {sid}"])
  | some _ =>
    match command.error with
    | some m =>
      (Except.ok (), h,
       [Event.spanSetStatus sid (SpanStatus.error m),
        Event.spanRecordException sid m,
        Event.spanEnd sid])
    | none =>
      (Except.ok (), h,
       [Event.spanSetStatus sid SpanStatus.ok, Event.spanEnd sid])

/-- `TelemetryCommandHandler._handle_add_span_event`: look the span up
without removing it; when absent, log a warning and return (never an
error); when present, add the named event with converted attributes. -/
def handle_add_span_event (command : AddSpanEventCommand)
    (h : TelemetryCommandHandler) : HRes Unit :=
  let sid := command.span_id
  match listGet sid h.active_spans with
  | none => (Except.ok (), h, [Event.logWarning s!"Span not found: {sid}"])
  | some _ =>
    let attrs := convert_attributes command.attributes
    (Except.ok (), h, [Event.spanAddEvent sid command.name attrs])

end TelemetryCommandHandler

/-! ## Command dispatch (`TelemetryCommandHandler.handle`)

The Python handler dispatches on `type(command)` through a dict covering
every command class; the embedded command sum makes that dispatch a total
match (the `Unknown command type` branch is unreachable for commands of
these twelve classes).  `start_span` is the one handler returning a value,
so `handle` returns a small result sum. -/

inductive Command where
  | initializeSDK (c : InitializeSDKCommand)
  | shutdownSDK (c : ShutdownSDKCommand)
  | flushTelemetry (c : FlushTelemetryCommand)
  | recordMetric (c : RecordMetricCommand)
  | recordCounter (c : RecordCounterCommand)
  | recordGauge (c : RecordGaugeCommand)
  | recordHistogram (c : RecordHistogramCommand)
  | emitLog (c : EmitLogCommand)
  | emitBatchLogs (c : EmitBatchLogsCommand)
  | startSpan (c : StartSpanCommand)
  | endSpan (c : EndSpanCommand)
  | addSpanEvent (c : AddSpanEventCommand)

/-- `type(command).__name__` for the embedded command classes. -/
def Command.typeName : Command → String
  | Command.initializeSDK _ => "InitializeSDKCommand"
  | Command.shutdownSDK _ => "ShutdownSDKCommand"
  | Command.flushTelemetry _ => "FlushTelemetryCommand"
  | Command.recordMetric _ => "RecordMetricCommand"
  | Command.recordCounter _ => "RecordCounterCommand"
  | Command.recordGauge _ => "RecordGaugeCommand"
  | Command.recordHistogram _ => "RecordHistogramCommand"
  | Command.emitLog _ => "EmitLogCommand"
  | Command.emitBatchLogs _ => "EmitBatchLogsCommand"
  | Command.startSpan _ => "StartSpanCommand"
  | Command.endSpan _ => "EndSpanCommand"
  | Command.addSpanEvent _ => "AddSpanEventCommand"

/-- The value a handler method hands back through `handle` (Python `None`
or the span-id string). -/
inductive HandleResult where
  | pyNone
  | spanId (s : String)
deriving Repr, DecidableEq

/-- `TelemetryCommandHandler.handle`: dispatch to the per-command method. -/
def TelemetryCommandHandler.handle (env : Env) (command : Command)
    (h : TelemetryCommandHandler) : HRes HandleResult :=
  match command with
  | Command.initializeSDK c =>
    let (r, h, evs) := h.handle_initialize env.init env.now c
    (r.map fun _ => HandleResult.pyNone, h, evs)
  | Command.shutdownSDK c =>
    let (r, h, evs) := h.handle_shutdown env.shutdownEnv c
    (r.map fun _ => HandleResult.pyNone, h, evs)
  | Command.flushTelemetry c =>
    let (r, h, evs) := h.handle_flush env.flushEnv c
    (r.map fun _ => HandleResult.pyNone, h, evs)
  | Command.recordMetric c =>
    let (r, h, evs) := h.handle_record_metric c
    (r.map fun _ => HandleResult.pyNone, h, evs)
  | Command.recordCounter c =>
    let (r, h, evs) := h.handle_record_counter c
    (r.map fun _ => HandleResult.pyNone, h, evs)
  | Command.recordGauge c =>
    let (r, h, evs) := h.handle_record_gauge c
    (r.map fun _ => HandleResult.pyNone, h, evs)
  | Command.recordHistogram c =>
    let (r, h, evs) := h.handle_record_histogram c
    (r.map fun _ => HandleResult.pyNone, h, evs)
  | Command.emitLog c =>
    let (r, h, evs) := h.handle_emit_log env.log c
    (r.map fun _ => HandleResult.pyNone, h, evs)
  | Command.emitBatchLogs c =>
    let (r, h, evs) := h.handle_emit_batch_logs env.log c.logs
    (r.map fun _ => HandleResult.pyNone, h, evs)
  | Command.startSpan c =>
    let (r, h, evs) := h.handle_start_span env.span c
    (r.map HandleResult.spanId, h, evs)
  | Command.endSpan c =>
    let (r, h, evs) := h.handle_end_span c
    (r.map fun _ => HandleResult.pyNone, h, evs)
  | Command.addSpanEvent c =>
    let (r, h, evs) := h.handle_add_span_event c
    (r.map fun _ => HandleResult.pyNone, h, evs)

/-! ## CommandBus (`application/commands.py`)

The registry is a Python dict keyed by command class; handlers satisfy the
`CommandHandler` protocol (`handle(command) → Any`).  The dict is embedded
as a function from class name to an optional handler function; the result
type is a parameter, matching the protocol's untyped `Any`. -/

structure CommandBus (α : Type) where
  handlers : String → Option (Command → α) := fun _ => none

/-- `CommandBus.register`: `self._handlers[command_type] = handler` — a
plain dict assignment that silently overwrites any previous handler for
the same class. -/
def CommandBus.register (bus : CommandBus α) (command_type : String)
    (handler : Command → α) : CommandBus α :=
  { handlers := fun t => if t = command_type then some handler else bus.handlers t }

/-- `CommandBus.dispatch`: look the handler up by the runtime type of the
message; raise a `ValueError` naming the class when none is registered,
else return the handler's result. -/
def CommandBus.dispatch (bus : CommandBus α) (command : Command) :
    Except PyErr α :=
  match bus.handlers command.typeName with
  | none =>
    let t := command.typeName
    Except.error (PyErr.valueError s!"No handler registered for {t}")
  | some handler => Except.ok (handler command)

/-! ## The facade (`client.py`)

`TelemetryFlowClient` holds its config, its own handler instance, and its
own `_initialized` flag.  Every recording facade method first runs
`_ensure_initialized`, which raises `NotInitializedError` when the flag is
down, then constructs the command (running its validation) and hands it to
the handler. -/

structure TelemetryFlowClient where
  config : TelemetryConfig
  handler : TelemetryCommandHandler := {}
  initialized : Bool := false
deriving Repr, DecidableEq

/-- Outcome, post-state and emitted external calls of one facade call. -/
abbrev CRes (α : Type) := Except PyErr α × TelemetryFlowClient × List Event

namespace TelemetryFlowClient

/-- `TelemetryFlowClient._ensure_initialized`. -/
def ensure_initialized (c : TelemetryFlowClient) : Except PyErr Unit :=
  if ¬c.initialized then
    Except.error (PyErr.notInitializedError
      "Client is not initialized. Call initialize() first.")
  else Except.ok ()

/-- `TelemetryFlowClient.initialize` (named `initializeSDK` here because
`initialize` is a Lean keyword): return immediately when already
initialized; otherwise handle an `InitializeSDKCommand`, set the flag on
success, and wrap any exception in `TelemetryFlowError`. -/
def initializeSDK (env : Env) (c : TelemetryFlowClient) : CRes Unit :=
  if c.initialized then (Except.ok (), c, [])
  else
    let (r, h, evs) :=
      c.handler.handle_initialize env.init env.now { config := c.config }
    match r with
    | Except.ok _ => (Except.ok (), { c with handler := h, initialized := true }, evs)
    | Except.error e =>
      let m := e.message
      (Except.error (PyErr.telemetryFlowError s!"Failed to initialize SDK: {m}"),
       { c with handler := h }, evs)

/-- `TelemetryFlowClient.shutdown`: return immediately when not
initialized; otherwise handle a `ShutdownSDKCommand` and, in a `finally`,
drop the flag, letting any exception propagate. -/
def shutdown (env : Env) (timeout : Rat) (c : TelemetryFlowClient) : CRes Unit :=
  if ¬c.initialized then (Except.ok (), c, [])
  else
    let (r, h, evs) := c.handler.handle_shutdown env.shutdownEnv
      { timeout_seconds := timeout }
    (r, { c with handler := h, initialized := false }, evs)

/-- `TelemetryFlowClient.flush`. -/
def flush (env : Env) (c : TelemetryFlowClient) : CRes Unit :=
  match c.ensure_initialized with
  | Except.error e => (Except.error e, c, [])
  | Except.ok _ =>
    let (r, h, evs) := c.handler.handle_flush env.flushEnv {}
    (r, { c with handler := h }, evs)

/-- `TelemetryFlowClient.record_metric`. -/
def record_metric (name : String) (value : Rat) (unit : String)
    (attributes : List (String × PyVal)) (c : TelemetryFlowClient) : CRes Unit :=
  match c.ensure_initialized with
  | Except.error e => (Except.error e, c, [])
  | Except.ok _ =>
    match RecordMetricCommand.mk? name value unit attributes with
    | Except.error e => (Except.error e, c, [])
    | Except.ok cmd =>
      let (r, h, evs) := c.handler.handle_record_metric cmd
      (r, { c with handler := h }, evs)

/-- `TelemetryFlowClient.increment_counter`. -/
def increment_counter (name : String) (value : Int)
    (attributes : List (String × PyVal)) (c : TelemetryFlowClient) : CRes Unit :=
  match c.ensure_initialized with
  | Except.error e => (Except.error e, c, [])
  | Except.ok _ =>
    match RecordCounterCommand.mk? name value attributes with
    | Except.error e => (Except.error e, c, [])
    | Except.ok cmd =>
      let (r, h, evs) := c.handler.handle_record_counter cmd
      (r, { c with handler := h }, evs)

/-- `TelemetryFlowClient.record_gauge`. -/
def record_gauge (name : String) (value : Rat)
    (attributes : List (String × PyVal)) (c : TelemetryFlowClient) : CRes Unit :=
  match c.ensure_initialized with
  | Except.error e => (Except.error e, c, [])
  | Except.ok _ =>
    match RecordGaugeCommand.mk? name value attributes with
    | Except.error e => (Except.error e, c, [])
    | Except.ok cmd =>
      let (r, h, evs) := c.handler.handle_record_gauge cmd
      (r, { c with handler := h }, evs)

/-- `TelemetryFlowClient.record_histogram`. -/
def record_histogram (name : String) (value : Rat) (unit : String)
    (attributes : List (String × PyVal)) (c : TelemetryFlowClient) : CRes Unit :=
  match c.ensure_initialized with
  | Except.error e => (Except.error e, c, [])
  | Except.ok _ =>
    match RecordHistogramCommand.mk? name value unit attributes with
    | Except.error e => (Except.error e, c, [])
    | Except.ok cmd =>
      let (r, h, evs) := c.handler.handle_record_histogram cmd
      (r, { c with handler := h }, evs)

/-- `TelemetryFlowClient.log`. -/
def log (env : Env) (message : String) (severity : SeverityLevel)
    (attributes : List (String × PyVal)) (c : TelemetryFlowClient) : CRes Unit :=
  match c.ensure_initialized with
  | Except.error e => (Except.error e, c, [])
  | Except.ok _ =>
    match EmitLogCommand.mk? message severity attributes with
    | Except.error e => (Except.error e, c, [])
    | Except.ok cmd =>
      let (r, h, evs) := c.handler.handle_emit_log env.log cmd
      (r, { c with handler := h }, evs)

/-- `TelemetryFlowClient.start_span`. -/
def start_span (env : Env) (name : String) (kind : SpanKind)
    (attributes : List (String × PyVal)) (c : TelemetryFlowClient) : CRes String :=
  match c.ensure_initialized with
  | Except.error e => (Except.error e, c, [])
  | Except.ok _ =>
    match StartSpanCommand.mk? name kind attributes with
    | Except.error e => (Except.error e, c, [])
    | Except.ok cmd =>
      let (r, h, evs) := c.handler.handle_start_span env.span cmd
      (r, { c with handler := h }, evs)

/-- `TelemetryFlowClient.end_span`. -/
def end_span (span_id : String) (error : Option String)
    (c : TelemetryFlowClient) : CRes Unit :=
  match c.ensure_initialized with
  | Except.error e => (Except.error e, c, [])
  | Except.ok _ =>
    match EndSpanCommand.mk? span_id error with
    | Except.error e => (Except.error e, c, [])
    | Except.ok cmd =>
      let (r, h, evs) := c.handler.handle_end_span cmd
      (r, { c with handler := h }, evs)

/-- `TelemetryFlowClient.add_span_event`. -/
def add_span_event (span_id : String) (name : String)
    (attributes : List (String × PyVal)) (c : TelemetryFlowClient) : CRes Unit :=
  match c.ensure_initialized with
  | Except.error e => (Except.error e, c, [])
  | Except.ok _ =>
    match AddSpanEventCommand.mk? span_id name attributes with
    | Except.error e => (Except.error e, c, [])
    | Except.ok cmd =>
      let (r, h, evs) := c.handler.handle_add_span_event cmd
      (r, { c with handler := h }, evs)

end TelemetryFlowClient

/-- Handler states reachable from a fresh `TelemetryCommandHandler()` by
handling any sequence of commands under any environments. -/
inductive Reachable : TelemetryCommandHandler → Prop where
  | base : Reachable {}
  | step (h : TelemetryCommandHandler) (env : Env) (command : Command) :
      Reachable h → Reachable (h.handle env command).2.1

/-- The `NotInitializedError` raised by
`TelemetryFlowClient._ensure_initialized`, at the result type of the
facade method it aborts. -/
def notInitializedFailure (α : Type) : Except PyErr α :=
  Except.error (PyErr.notInitializedError
    "Client is not initialized. Call initialize() first.")

/-! ## Helper lemmas -/

theorem containsSub_self (a : String) : ContainsSub a a :=
  ⟨"", "", by apply String.ext; simp⟩

theorem containsSub_trans {t u v : String} (h1 : ContainsSub t u)
    (h2 : ContainsSub u v) : ContainsSub t v := by
  obtain ⟨x, y, rfl⟩ := h1
  obtain ⟨p, q, rfl⟩ := h2
  exact ⟨x ++ p, q ++ y, by simp [String.append_assoc]⟩

theorem go_contains_acc (s : String) (l : List String) (a : String) :
    ContainsSub (String.intercalate.go a s l) a := by
  induction l generalizing a with
  | nil => simpa [String.intercalate.go] using containsSub_self a
  | cons b bs ih =>
    have h1 : ContainsSub (a ++ s ++ b) a :=
      ⟨"", s ++ b, by simp [String.append_assoc]⟩
    have h2 := ih (a ++ s ++ b)
    simpa [String.intercalate.go] using containsSub_trans h2 h1

theorem go_contains_mem (s : String) (l : List String) (a d : String)
    (hd : d ∈ l) : ContainsSub (String.intercalate.go a s l) d := by
  induction l generalizing a with
  | nil => cases hd
  | cons b bs ih =>
    rcases List.mem_cons.mp hd with rfl | hmem
    · have h1 : ContainsSub (a ++ s ++ d) d :=
        ⟨a ++ s, "", by simp [String.append_assoc]⟩
      have h2 := go_contains_acc s bs (a ++ s ++ d)
      simpa [String.intercalate.go] using containsSub_trans h2 h1
    · simpa [String.intercalate.go] using ih (a ++ s ++ b) hmem

/-- Every member of a joined list is a substring of the join. -/
theorem intercalate_contains (s : String) (l : List String) (d : String)
    (hd : d ∈ l) : ContainsSub (String.intercalate s l) d := by
  cases l with
  | nil => cases hd
  | cons a as =>
    rcases List.mem_cons.mp hd with rfl | hmem
    · simpa [String.intercalate] using go_contains_acc s as d
    · simpa [String.intercalate] using go_contains_mem s as a d hmem

theorem listErase_of_get_none (k : String) (l : List (String × α))
    (hg : listGet k l = none) : listErase k l = l := by
  induction l with
  | nil => rfl
  | cons kv rest ih =>
    by_cases hk : kv.1 = k
    · simp [listGet, hk] at hg
    · simp [listGet, hk] at hg
      simp [listErase, List.filter, hk, ih hg]
      simpa [listErase] using ih hg

theorem listGet_listErase_self (k : String) (l : List (String × α)) :
    listGet k (listErase k l) = none := by
  induction l with
  | nil => rfl
  | cons kv rest ih =>
    by_cases hk : kv.1 = k
    · simpa [listErase, List.filter, hk] using ih
    · simpa [listErase, List.filter, hk, listGet] using ih

/-- Closed form of `_handle_end_span`: it always returns `ok`, always
removes the id from the registry, and emits the warning or the
status/exception/end calls according to presence and error. -/
theorem handle_end_span_eq (h : TelemetryCommandHandler)
    (command : EndSpanCommand) :
    h.handle_end_span command =
      (Except.ok (),
       { h with active_spans := listErase command.span_id h.active_spans },
       match listGet command.span_id h.active_spans with
       | none => [Event.logWarning ("Span not found: " ++ command.span_id)]
       | some _ =>
         match command.error with
         | some m =>
           [Event.spanSetStatus command.span_id (SpanStatus.error m),
            Event.spanRecordException command.span_id m,
            Event.spanEnd command.span_id]
         | none =>
           [Event.spanSetStatus command.span_id SpanStatus.ok,
            Event.spanEnd command.span_id]) := by
  unfold TelemetryCommandHandler.handle_end_span
  cases hg : listGet command.span_id h.active_spans with
  | none => simp [hg, toString]
  | some s => cases command.error <;> simp [hg, toString]

/-- `_handle_shutdown` on a not-initialized handler returns immediately:
no error, no state change, no external call. -/
theorem handle_shutdown_noop (env : ShutdownEnv) (command : ShutdownSDKCommand)
    (h : TelemetryCommandHandler) (hi : h.initialized = false) :
    h.handle_shutdown env command = (Except.ok (), h, []) := by
  unfold TelemetryCommandHandler.handle_shutdown
  simp [hi]

/-- After any `_handle_shutdown` call the handler is not initialized
(whether it was a no-op on an uninitialized handler or a real shutdown). -/
theorem handle_shutdown_post (env : ShutdownEnv) (command : ShutdownSDKCommand)
    (h : TelemetryCommandHandler) :
    (h.handle_shutdown env command).2.1.initialized = false := by
  by_cases hi : h.initialized
  · unfold TelemetryCommandHandler.handle_shutdown
    cases env.tracer_flush_raises <;> cases env.tracer_shutdown_raises <;>
      cases env.meter_shutdown_raises <;>
      by_cases htp : h.tracer_provider <;> by_cases hmp : h.meter_provider <;>
      simp [hi, htp, hmp]
  · rw [handle_shutdown_noop env command h (by simpa using hi)]
    simpa using hi

/-! ## C5 — config validation aggregates all violations -/

/-- C5: `TelemetryConfig` construction (whose `__post_init__` runs
`_validate`) raises a `ConfigError` iff at least one of the six rules is
violated; the raised message is the list of all violated rule
descriptions joined by `"; "` — each violated rule's description is in
that list and is a substring of the message — and in particular an empty
endpoint together with an empty service name yields one error containing
both descriptions. -/
theorem C5_config_validation_aggregates (c : TelemetryConfig) :
    ((∃ e, c.validate = Except.error e) ↔
      (c.endpoint = "" ∨ c.service_name = "" ∨ c.timeout_total_seconds ≤ 0 ∨
       c.max_retries < 0 ∨ c.batch_max_size ≤ 0 ∨ c.rate_limit ≤ 0)) ∧
    (∀ e, c.validate = Except.error e →
      e = PyErr.configError (String.intercalate "; " c.validationErrors) ∧
      ∀ d ∈ c.validationErrors,
        ContainsSub (String.intercalate "; " c.validationErrors) d) ∧
    (c.endpoint = "" → "Endpoint is required" ∈ c.validationErrors) ∧
    (c.service_name = "" → "Service name is required" ∈ c.validationErrors) ∧
    (c.timeout_total_seconds ≤ 0 → "Timeout must be positive" ∈ c.validationErrors) ∧
    (c.max_retries < 0 → "Max retries must be non-negative" ∈ c.validationErrors) ∧
    (c.batch_max_size ≤ 0 → "Batch max size must be positive" ∈ c.validationErrors) ∧
    (c.rate_limit ≤ 0 → "Rate limit must be positive" ∈ c.validationErrors) ∧
    (c.endpoint = "" → c.service_name = "" →
      ∃ m, c.validate = Except.error (PyErr.configError m) ∧
        ContainsSub m "Endpoint is required" ∧
        ContainsSub m "Service name is required") := by
  have herr : c.validationErrors = [] ↔
      ¬(c.endpoint = "" ∨ c.service_name = "" ∨ c.timeout_total_seconds ≤ 0 ∨
        c.max_retries < 0 ∨ c.batch_max_size ≤ 0 ∨ c.rate_limit ≤ 0) := by
    unfold TelemetryConfig.validationErrors
    split_ifs <;> simp_all
  have hmem1 : c.endpoint = "" → "Endpoint is required" ∈ c.validationErrors := by
    intro h1
    unfold TelemetryConfig.validationErrors
    split_ifs <;> simp_all
  have hmem2 : c.service_name = "" → "Service name is required" ∈ c.validationErrors := by
    intro h1
    unfold TelemetryConfig.validationErrors
    split_ifs <;> simp_all
  have hmem3 : c.timeout_total_seconds ≤ 0 →
      "Timeout must be positive" ∈ c.validationErrors := by
    intro h1
    unfold TelemetryConfig.validationErrors
    split_ifs <;> simp_all
  have hmem4 : c.max_retries < 0 →
      "Max retries must be non-negative" ∈ c.validationErrors := by
    intro h1
    unfold TelemetryConfig.validationErrors
    split_ifs <;> simp_all
  have hmem5 : c.batch_max_size ≤ 0 →
      "Batch max size must be positive" ∈ c.validationErrors := by
    intro h1
    unfold TelemetryConfig.validationErrors
    split_ifs <;> simp_all
  have hmem6 : c.rate_limit ≤ 0 →
      "Rate limit must be positive" ∈ c.validationErrors := by
    intro h1
    unfold TelemetryConfig.validationErrors
    split_ifs <;> simp_all
  refine ⟨?_, ?_, hmem1, hmem2, hmem3, hmem4, hmem5, hmem6, ?_⟩
  · constructor
    · rintro ⟨e, he⟩
      by_contra hcon
      have hnil := herr.mpr hcon
      simp [TelemetryConfig.validate, hnil] at he
    · intro hdisj
      have hne : ¬c.validationErrors = [] := fun hnil => (herr.mp hnil) hdisj
      refine ⟨PyErr.configError (String.intercalate "; " c.validationErrors), ?_⟩
      simp [TelemetryConfig.validate, List.isEmpty_iff, hne]
  · intro e he
    have hne : ¬c.validationErrors.isEmpty := by
      intro hemp
      simp [TelemetryConfig.validate, hemp] at he
    simp only [TelemetryConfig.validate, hne] at he
    simp at he
    refine ⟨he.symm, ?_⟩
    intro d hd
    exact intercalate_contains "; " c.validationErrors d hd
  · intro h1 h2
    refine ⟨String.intercalate "; " c.validationErrors, ?_, ?_, ?_⟩
    · have hne : ¬c.validationErrors = [] := by
        intro hnil
        exact (herr.mp hnil) (Or.inl h1)
      simp [TelemetryConfig.validate, List.isEmpty_iff, hne]
    · exact intercalate_contains "; " c.validationErrors _ (hmem1 h1)
    · exact intercalate_contains "; " c.validationErrors _ (hmem2 h2)

/-- Witness for C5: the config with empty endpoint and empty service name
(and every numeric field at its valid default) is rejected, and its single
error message contains both violation descriptions. -/
theorem C5_config_validation_aggregates_witness :
    ∃ m, TelemetryConfig.validate { endpoint := "", service_name := "" } =
        Except.error (PyErr.configError m) ∧
      ContainsSub m "Endpoint is required" ∧
      ContainsSub m "Service name is required" :=
  (C5_config_validation_aggregates { endpoint := "", service_name := "" }).2.2.2.2.2.2.2.2
    rfl rfl

/-! ## C8 — attribute conversion is total and deterministic -/

/-- C8: `_convert_attributes` is a total function (the embedded type says
so: no `Except`, and the source performs only `isinstance` checks, list
filtering and `str()`), deterministic, and for every key/value pair it
keeps the key and converts the value exactly as the spec describes:
primitive scalars pass through unchanged, list/tuple sequences pass
through with every non-primitive element dropped, and any other value is
replaced by its string representation. -/
theorem C8_convert_attributes_total (attributes : List (String × PyVal)) :
    (convert_attributes attributes).map Prod.fst = attributes.map Prod.fst ∧
    convert_attributes attributes =
      attributes.map (fun kv =>
        (kv.1,
          match kv.2 with
          | PyVal.str s => AttrVal.prim (Prim.str s)
          | PyVal.bool b => AttrVal.prim (Prim.bool b)
          | PyVal.int n => AttrVal.prim (Prim.int n)
          | PyVal.float x => AttrVal.prim (Prim.float x)
          | PyVal.list xs => AttrVal.seq (xs.filterMap PyVal.toPrim)
          | PyVal.tuple xs => AttrVal.seq (xs.filterMap PyVal.toPrim)
          | PyVal.other r => AttrVal.prim (Prim.str r))) := by
  constructor
  · simp [convert_attributes]
  · unfold convert_attributes
    congr 1
    funext kv
    cases kv.2 <;> rfl

/-! ## C9 — CommandBus registration and dispatch -/

/-- C9: `CommandBus.register` stores exactly one handler per command type
(registering characterizes the whole registry: the registered type maps to
the new handler, every other type is untouched, so a later registration
for the same type silently overwrites the earlier one), and
`CommandBus.dispatch` fails with a `ValueError` naming the message's
runtime type when no handler is registered for it, while for a registered
type it returns that handler's result on the message. -/
theorem C9_command_bus_register_dispatch (α : Type) (bus : CommandBus α)
    (t : String) (f g : Command → α) (m : Command) :
    (∀ t2, (bus.register t f).handlers t2 =
      if t2 = t then some f else bus.handlers t2) ∧
    ((bus.register t f).register t g).handlers t = some g ∧
    (bus.handlers m.typeName = none →
      bus.dispatch m = Except.error (PyErr.valueError
        ("No handler registered for " ++ m.typeName)) ∧
      ContainsSub ("No handler registered for " ++ m.typeName) m.typeName) ∧
    (bus.handlers m.typeName = some f → bus.dispatch m = Except.ok (f m)) := by
  refine ⟨fun t2 => rfl, by simp [CommandBus.register], ?_, ?_⟩
  · intro hnone
    constructor
    · simp [CommandBus.dispatch, hnone, toString]
    · exact ⟨"No handler registered for ", "", by simp [String.append_assoc]⟩
  · intro hsome
    simp [CommandBus.dispatch, hsome]

/-- Witness for C9: on the empty bus, dispatching an `EndSpanCommand`
fails naming the type; after registering a handler for that type, dispatch
returns its result; re-registering overwrites. -/
theorem C9_command_bus_register_dispatch_witness :
    (CommandBus.dispatch ({} : CommandBus Nat)
        (Command.endSpan { span_id := "abc" }) =
      Except.error (PyErr.valueError
        "No handler registered for EndSpanCommand")) ∧
    (CommandBus.dispatch
        (CommandBus.register ({} : CommandBus Nat) "EndSpanCommand" (fun _ => 7))
        (Command.endSpan { span_id := "abc" }) = Except.ok 7) ∧
    ((CommandBus.register
        (CommandBus.register ({} : CommandBus Nat) "EndSpanCommand" (fun _ => 7))
        "EndSpanCommand" (fun _ => 9)).handlers "EndSpanCommand" =
      some (fun _ => 9)) := by
  have h1 := C9_command_bus_register_dispatch Nat {} "EndSpanCommand"
    (fun _ => 7) (fun _ => 9) (Command.endSpan { span_id := "abc" })
  have h2 := C9_command_bus_register_dispatch Nat
    (CommandBus.register ({} : CommandBus Nat) "EndSpanCommand" (fun _ => 7))
    "EndSpanCommand" (fun _ => 7) (fun _ => 9)
    (Command.endSpan { span_id := "abc" })
  refine ⟨?_, ?_, h1.2.1⟩
  · have h3 := (h1.2.2.1 rfl).1
    simpa using h3
  · exact h2.2.2.2 (by simp [CommandBus.register, Command.typeName])

/-! ## C10 — empty span id fails at command construction -/

/-- C10: constructing an `EndSpanCommand` or an `AddSpanEventCommand` with
an empty `span_id` raises a `ValueError` in `__post_init__`, so
`end_span("")` and `add_span_event("", name)` raise `ValueError` even on a
fully initialized client, with the client state untouched — the one
exception to "ending or annotating an unknown span never raises". -/
theorem C10_empty_span_id_value_error (err : Option String) (name : String)
    (attributes : List (String × PyVal)) (c : TelemetryFlowClient)
    (hc : c.initialized = true) :
    EndSpanCommand.mk? "" err =
      Except.error (PyErr.valueError "span_id is required for EndSpanCommand") ∧
    AddSpanEventCommand.mk? "" name attributes =
      Except.error (PyErr.valueError "span_id is required for AddSpanEventCommand") ∧
    TelemetryFlowClient.end_span "" err c =
      (Except.error (PyErr.valueError "span_id is required for EndSpanCommand"),
       c, []) ∧
    TelemetryFlowClient.add_span_event "" name attributes c =
      (Except.error (PyErr.valueError "span_id is required for AddSpanEventCommand"),
       c, []) := by
  refine ⟨rfl, rfl, ?_, ?_⟩
  · simp [TelemetryFlowClient.end_span, TelemetryFlowClient.ensure_initialized,
      hc, EndSpanCommand.mk?]
  · simp [TelemetryFlowClient.add_span_event, TelemetryFlowClient.ensure_initialized,
      hc, AddSpanEventCommand.mk?]

/-- Witness for C10: a concrete initialized client. -/
theorem C10_empty_span_id_value_error_witness :
    TelemetryFlowClient.end_span "" none
        { config := { endpoint := "e", service_name := "s" },
          initialized := true } =
      (Except.error (PyErr.valueError "span_id is required for EndSpanCommand"),
       { config := { endpoint := "e", service_name := "s" },
         initialized := true }, []) ∧
    TelemetryFlowClient.add_span_event "" "checkpoint" []
        { config := { endpoint := "e", service_name := "s" },
          initialized := true } =
      (Except.error (PyErr.valueError "span_id is required for AddSpanEventCommand"),
       { config := { endpoint := "e", service_name := "s" },
         initialized := true }, []) := by
  have h := C10_empty_span_id_value_error none "checkpoint" []
    { config := { endpoint := "e", service_name := "s" }, initialized := true } rfl
  exact ⟨h.2.2.1, h.2.2.2⟩

/-! ## C6 — generic metric double-increments the sent counter -/

/-- C6: on an initialized session (initialized with a meter), one
`_handle_record_metric` call returns normally and bumps `_metrics_sent` by
exactly 2 — once inside the delegated gauge handler and once directly in
the generic-metric handler. -/
theorem C6_record_metric_double_count (command : RecordMetricCommand)
    (h : TelemetryCommandHandler) (hi : h.initialized = true)
    (hm : h.meter = true) (hn : ¬command.name = "") :
    (h.handle_record_metric command).1 = Except.ok () ∧
    (h.handle_record_metric command).2.1.metrics_sent = h.metrics_sent + 2 := by
  unfold TelemetryCommandHandler.handle_record_metric
  simp only [hi, hm, RecordGaugeCommand.mk?, hn]
  unfold TelemetryCommandHandler.handle_record_gauge
  simp only [hi, hm]
  by_cases hg : command.name ∈ h.gauges <;> simp [hg]

/-- Witness for C6: a ready handler with `metricsSent == 0` ends one
`recordMetric("m", 1.0)` call with `metricsSent == 2`. -/
theorem C6_record_metric_double_count_witness :
    (TelemetryCommandHandler.handle_record_metric { name := "m", value := 1 }
        { initialized := true, meter := true }).1 = Except.ok () ∧
    (TelemetryCommandHandler.handle_record_metric { name := "m", value := 1 }
        { initialized := true, meter := true }).2.1.metrics_sent = 0 + 2 :=
  C6_record_metric_double_count { name := "m", value := 1 }
    { initialized := true, meter := true } rfl rfl (by simp)

/-! ## C4 — ending spans: removal, tolerance, status -/

/-- C4: `_handle_end_span` never raises; it always leaves the registry
without the given id; on an absent id (never issued or already ended) it
changes nothing and only logs a warning, and ending the same id twice is
a safe no-op (the id is gone after the first end); when an error is
supplied, the span's status is set to ERROR carrying the error's message
and the exception is recorded before the span is ended, otherwise the
status is set to OK before ending. -/
theorem C4_end_span_lifecycle (command : EndSpanCommand)
    (h : TelemetryCommandHandler) :
    (h.handle_end_span command).1 = Except.ok () ∧
    (h.handle_end_span command).2.1.active_spans =
      listErase command.span_id h.active_spans ∧
    (listGet command.span_id h.active_spans = none →
      (h.handle_end_span command).2.1 = h ∧
      (h.handle_end_span command).2.2 =
        [Event.logWarning ("Span not found: " ++ command.span_id)]) ∧
    (listGet command.span_id ((h.handle_end_span command).2.1).active_spans
      = none) ∧
    (((h.handle_end_span command).2.1.handle_end_span command).2.1 =
      (h.handle_end_span command).2.1) ∧
    (∀ s, listGet command.span_id h.active_spans = some s →
      (h.handle_end_span command).2.2 =
        match command.error with
        | some m =>
          [Event.spanSetStatus command.span_id (SpanStatus.error m),
           Event.spanRecordException command.span_id m,
           Event.spanEnd command.span_id]
        | none =>
          [Event.spanSetStatus command.span_id SpanStatus.ok,
           Event.spanEnd command.span_id]) := by
  have h1 : ((h.handle_end_span command).2.1).active_spans =
      listErase command.span_id h.active_spans := by
    rw [handle_end_span_eq]
  have hg2 : listGet command.span_id
      ((h.handle_end_span command).2.1).active_spans = none := by
    rw [h1]
    exact listGet_listErase_self command.span_id h.active_spans
  refine ⟨by rw [handle_end_span_eq], h1, ?_, hg2, ?_, ?_⟩
  · intro hg
    rw [handle_end_span_eq]
    refine ⟨?_, by simp [hg]⟩
    show { h with active_spans := listErase command.span_id h.active_spans } = h
    rw [listErase_of_get_none _ _ hg]
  · rw [handle_end_span_eq ((h.handle_end_span command).2.1) command,
        listErase_of_get_none _ _ hg2]
  · intro s hg
    rw [handle_end_span_eq]
    simp [hg]

/-- Witness for C4: ending a registered span with an error, at a concrete
registry holding exactly that span. -/
theorem C4_end_span_lifecycle_witness :
    (TelemetryCommandHandler.handle_end_span
        { span_id := "id1", error := some "boom" }
        { active_spans :=
            [("id1", { name := "op", kind := OTELSpanKind.internal,
                       attributes := [] })] }).2.2 =
      [Event.spanSetStatus "id1" (SpanStatus.error "boom"),
       Event.spanRecordException "id1" "boom",
       Event.spanEnd "id1"] :=
  (C4_end_span_lifecycle { span_id := "id1", error := some "boom" }
      { active_spans :=
          [("id1", { name := "op", kind := OTELSpanKind.internal,
                     attributes := [] })] }).2.2.2.2.2
    { name := "op", kind := OTELSpanKind.internal, attributes := [] } rfl

/-! ## C1 — shutdown: independent pipelines, aggregation, idempotence -/

/-- C1: on a Ready (initialized) core, `_handle_shutdown` attempts the
trace-pipeline flush and the metric-pipeline shutdown independently (each
attempt happens whenever its provider exists, whatever the other
pipeline's failure oracle says), unconditionally clears the active-span
registry and drops the initialized flag, and raises exactly one
`RuntimeError` reporting the failure count iff at least one pipeline
operation failed; on a core that is not Ready — in particular right after
a previous shutdown — it is a no-op that raises nothing and changes
nothing. -/
theorem C1_shutdown_independent_aggregated (env : ShutdownEnv)
    (command : ShutdownSDKCommand) (h : TelemetryCommandHandler) :
    (h.initialized = false →
      h.handle_shutdown env command = (Except.ok (), h, [])) ∧
    (h.initialized = true →
      (h.handle_shutdown env command).2.1.active_spans = [] ∧
      (h.handle_shutdown env command).2.1.initialized = false ∧
      (h.tracer_provider = true →
        Event.tracerForceFlush (some (pyIntMillis command.timeout_seconds)) ∈
          (h.handle_shutdown env command).2.2) ∧
      (h.meter_provider = true →
        Event.meterShutdown (pyIntMillis command.timeout_seconds) ∈
          (h.handle_shutdown env command).2.2) ∧
      ((h.handle_shutdown env command).1 =
        if (if h.tracer_provider = true ∧
              (env.tracer_flush_raises ≠ none ∨ env.tracer_shutdown_raises ≠ none)
            then 1 else 0) +
           (if h.meter_provider = true ∧ env.meter_shutdown_raises ≠ none
            then 1 else 0) = 0
        then Except.ok ()
        else Except.error (PyErr.runtimeError
          ("Shutdown completed with " ++
            toString
              ((if h.tracer_provider = true ∧
                  (env.tracer_flush_raises ≠ none ∨
                   env.tracer_shutdown_raises ≠ none) then 1 else 0) +
               (if h.meter_provider = true ∧ env.meter_shutdown_raises ≠ none
                then 1 else 0)) ++
            " error(s)")))) ∧
    (∀ env2 command2,
      ((h.handle_shutdown env command).2.1).handle_shutdown env2 command2 =
        (Except.ok (), (h.handle_shutdown env command).2.1, [])) := by
  refine ⟨fun hi => handle_shutdown_noop env command h hi, fun hi => ?_,
    fun env2 command2 => handle_shutdown_noop env2 command2 _
      (handle_shutdown_post env command h)⟩
  unfold TelemetryCommandHandler.handle_shutdown
  cases env.tracer_flush_raises <;> cases env.tracer_shutdown_raises <;>
    cases env.meter_shutdown_raises <;>
    by_cases htp : h.tracer_provider <;> by_cases hmp : h.meter_provider <;>
    simp [hi, htp, hmp, toString]

/-- Witness for C1: a Ready handler with both providers, whose tracer
flush fails while the meter shutdown succeeds: the meter shutdown is still
attempted, spans are cleared, the state returns to uninitialized, and one
aggregated error reports 1 error. -/
theorem C1_shutdown_independent_aggregated_witness :
    (TelemetryCommandHandler.handle_shutdown
        { tracer_flush_raises := some "boom" } {}
        { initialized := true, tracer_provider := true, meter_provider := true,
          active_spans :=
            [("id1", { name := "op", kind := OTELSpanKind.internal,
                       attributes := [] })] }).2.1.active_spans = [] ∧
    (TelemetryCommandHandler.handle_shutdown
        { tracer_flush_raises := some "boom" } {}
        { initialized := true, tracer_provider := true, meter_provider := true,
          active_spans :=
            [("id1", { name := "op", kind := OTELSpanKind.internal,
                       attributes := [] })] }).2.1.initialized = false ∧
    Event.meterShutdown (pyIntMillis (30 : Rat)) ∈
      (TelemetryCommandHandler.handle_shutdown
        { tracer_flush_raises := some "boom" } {}
        { initialized := true, tracer_provider := true, meter_provider := true,
          active_spans :=
            [("id1", { name := "op", kind := OTELSpanKind.internal,
                       attributes := [] })] }).2.2 ∧
    (TelemetryCommandHandler.handle_shutdown
        { tracer_flush_raises := some "boom" } {}
        { initialized := true, tracer_provider := true, meter_provider := true,
          active_spans :=
            [("id1", { name := "op", kind := OTELSpanKind.internal,
                       attributes := [] })] }).1 =
      Except.error (PyErr.runtimeError "Shutdown completed with 1 error(s)") := by
  have hc := C1_shutdown_independent_aggregated
    { tracer_flush_raises := some "boom" } {}
    { initialized := true, tracer_provider := true, meter_provider := true,
      active_spans :=
        [("id1", { name := "op", kind := OTELSpanKind.internal,
                   attributes := [] })] }
  have hr := hc.2.1 rfl
  refine ⟨hr.1, hr.2.1, hr.2.2.2.1 rfl, ?_⟩
  have he := hr.2.2.2.2
  simpa using he

/-! ## C2 — initialize: idempotence, wrapped failure, partial state -/

/-- Whatever external call fails during `_handle_initialize` on an
uninitialized handler, the exception leaves it uninitialized with the
start time untouched — but with the config of the failed attempt already
assigned. -/
theorem handle_initialize_error_state (env : InitEnv) (now : Nat)
    (command : InitializeSDKCommand) (h : TelemetryCommandHandler)
    (hinit : h.initialized = false) (e : PyErr) (h2 : TelemetryCommandHandler)
    (evs : List Event)
    (he : h.handle_initialize env now command = (Except.error e, h2, evs)) :
    h2.initialized = false ∧ h2.start_time = h.start_time ∧
    h2.config = some command.config := by
  unfold TelemetryCommandHandler.handle_initialize at he
  rw [hinit] at he
  unfold TelemetryCommandHandler.init_tracer TelemetryCommandHandler.init_meter at he
  cases hf : env.factory_init_raises <;>
    cases hr : env.create_resource_raises <;>
    cases ht : env.create_trace_exporter_raises <;>
    cases hm : env.create_metric_exporter_raises <;>
    cases het : command.config.enable_traces <;>
    cases hem : command.config.enable_metrics <;>
    simp_all [Prod.ext_iff] <;> (obtain ⟨-, rfl, -⟩ := he) <;> simp_all

/-- C2 (amended): `initialize` is idempotent (already initialized → return
with no side effect and no error), and every failure raised while
initializing surfaces as a wrapped `TelemetryFlowError` leaving the
session not initialized and without a start time from the failed attempt —
but, contrary to the original claim, the handler retains the config (and
whatever else was assigned before the failure point). -/
theorem C2_initialize_idempotent_wrapped (env : Env) (c : TelemetryFlowClient) :
    (c.initialized = true → c.initializeSDK env = (Except.ok (), c, [])) ∧
    (c.initialized = false → c.handler.initialized = false →
      ∀ e h2 evs,
        c.handler.handle_initialize env.init env.now { config := c.config } =
          (Except.error e, h2, evs) →
        c.initializeSDK env =
          (Except.error (PyErr.telemetryFlowError
            ("Failed to initialize SDK: " ++ e.message)),
           { c with handler := h2 }, evs) ∧
        h2.initialized = false ∧ h2.start_time = c.handler.start_time ∧
        h2.config = some c.config) := by
  constructor
  · intro hc
    unfold TelemetryFlowClient.initializeSDK
    simp [hc]
  · intro hc hh e h2 evs he
    have hstate := handle_initialize_error_state env.init env.now
      { config := c.config } c.handler hh e h2 evs he
    refine ⟨?_, hstate⟩
    unfold TelemetryFlowClient.initializeSDK
    simp [hc, he, toString]

/-- C2 counterexample to the original claim: when `create_resource` fails,
the failed attempt leaves the handler holding the config and the exporter
factory — the session is not free of partial state. -/
theorem C2_initialize_no_partial_state_counterexample :
    ((TelemetryFlowClient.initializeSDK
        { init := { create_resource_raises := some "boom" } }
        { config := { endpoint := "api.example.com:4317",
                      service_name := "svc" } }).1 =
      Except.error (PyErr.telemetryFlowError "Failed to initialize SDK: boom")) ∧
    ((TelemetryFlowClient.initializeSDK
        { init := { create_resource_raises := some "boom" } }
        { config := { endpoint := "api.example.com:4317",
                      service_name := "svc" } }).2.1.initialized = false) ∧
    ¬((TelemetryFlowClient.initializeSDK
        { init := { create_resource_raises := some "boom" } }
        { config := { endpoint := "api.example.com:4317",
                      service_name := "svc" } }).2.1.handler.config = none) ∧
    ((TelemetryFlowClient.initializeSDK
        { init := { create_resource_raises := some "boom" } }
        { config := { endpoint := "api.example.com:4317",
                      service_name := "svc" } }).2.1.handler.exporter_factory
      = true) := by
  refine ⟨?_, rfl, ?_, rfl⟩
  · simp [TelemetryFlowClient.initializeSDK,
      TelemetryCommandHandler.handle_initialize, toString, PyErr.message]
  · decide

/-- Witness for C2 (amended): the idempotent return on an initialized
client, and the wrapped error with retained config at the concrete failing
input of the counterexample. -/
theorem C2_initialize_idempotent_wrapped_witness :
    (TelemetryFlowClient.initializeSDK {}
        { config := { endpoint := "e", service_name := "s" },
          initialized := true } =
      (Except.ok (),
       { config := { endpoint := "e", service_name := "s" },
         initialized := true }, [])) ∧
    ((TelemetryFlowClient.initializeSDK
        { init := { create_resource_raises := some "boom" } }
        { config := { endpoint := "api.example.com:4317",
                      service_name := "svc" } }).2.1.handler.config =
      some { endpoint := "api.example.com:4317", service_name := "svc" }) := by
  constructor
  · exact (C2_initialize_idempotent_wrapped {}
      { config := { endpoint := "e", service_name := "s" },
        initialized := true }).1 rfl
  · have h := (C2_initialize_idempotent_wrapped
      { init := { create_resource_raises := some "boom" } }
      { config := { endpoint := "api.example.com:4317",
                    service_name := "svc" } }).2 rfl rfl
      (PyErr.external "boom") _ _ rfl
    rw [h.1]

/-! ## C7 — instrument caching: create once, reuse after -/

/-- C7: for each metric kind, on an initialized session with a meter the
first record call for a name performs exactly one instrument creation and
appends the name to that kind's cache, while a call for an already-cached
name performs no creation and leaves the cache unchanged — so a
duplicate-free cache stays duplicate-free; and concretely, three
`incrementCounter("x")` calls with different attribute sets on a freshly
initialized core create exactly one counter instrument and leave
`metricsSent == 3`. -/
theorem C7_instrument_cache_reuse (h : TelemetryCommandHandler)
    (hi : h.initialized = true) (hm : h.meter = true) :
    (∀ command : RecordCounterCommand,
      (¬command.name ∈ h.counters →
        (h.handle_record_counter command).2.1.counters =
          h.counters ++ [command.name] ∧
        (h.handle_record_counter command).2.2.filter Event.isInstrumentCreation =
          [Event.createCounter command.name ("Counter for " ++ command.name)]) ∧
      (command.name ∈ h.counters →
        (h.handle_record_counter command).2.1.counters = h.counters ∧
        (h.handle_record_counter command).2.2.filter Event.isInstrumentCreation
          = []) ∧
      (h.counters.Nodup → (h.handle_record_counter command).2.1.counters.Nodup)) ∧
    (∀ command : RecordGaugeCommand,
      (¬command.name ∈ h.gauges →
        (h.handle_record_gauge command).2.1.gauges =
          h.gauges ++ [command.name] ∧
        (h.handle_record_gauge command).2.2.filter Event.isInstrumentCreation =
          [Event.createUpDownCounter command.name
            ("Gauge for " ++ command.name)]) ∧
      (command.name ∈ h.gauges →
        (h.handle_record_gauge command).2.1.gauges = h.gauges ∧
        (h.handle_record_gauge command).2.2.filter Event.isInstrumentCreation
          = []) ∧
      (h.gauges.Nodup → (h.handle_record_gauge command).2.1.gauges.Nodup)) ∧
    (∀ command : RecordHistogramCommand,
      (¬command.name ∈ h.histograms →
        (h.handle_record_histogram command).2.1.histograms =
          h.histograms ++ [command.name] ∧
        (h.handle_record_histogram command).2.2.filter
            Event.isInstrumentCreation =
          [Event.createHistogram command.name
            (if command.unit = "" then "1" else command.unit)
            ("Histogram for " ++ command.name)]) ∧
      (command.name ∈ h.histograms →
        (h.handle_record_histogram command).2.1.histograms = h.histograms ∧
        (h.handle_record_histogram command).2.2.filter
            Event.isInstrumentCreation = []) ∧
      (h.histograms.Nodup →
        (h.handle_record_histogram command).2.1.histograms.Nodup)) ∧
    (let h0 := (TelemetryCommandHandler.handle_initialize {} 0
        { config := { endpoint := "api.example.com:4317",
                      service_name := "svc" } } {}).2.1
     let r1 := h0.handle_record_counter
       { name := "x", value := 1, attributes := [("path", PyVal.str "/a")] }
     let r2 := r1.2.1.handle_record_counter
       { name := "x", value := 1,
         attributes := [("path", PyVal.str "/b"), ("retry", PyVal.bool true)] }
     let r3 := r2.2.1.handle_record_counter { name := "x", value := 1 }
     ((r1.2.2 ++ r2.2.2 ++ r3.2.2).filter Event.isInstrumentCreation).length
        = 1 ∧
     r3.2.1.metrics_sent = 3 ∧
     r3.2.1.counters = ["x"]) := by
  refine ⟨?_, ?_, ?_, by decide⟩
  · intro command
    refine ⟨?_, ?_, ?_⟩
    · intro hmem
      unfold TelemetryCommandHandler.handle_record_counter
      simp [hi, hm, hmem, Event.isInstrumentCreation, toString]
    · intro hmem
      unfold TelemetryCommandHandler.handle_record_counter
      simp [hi, hm, hmem, Event.isInstrumentCreation, toString]
    · intro hnd
      unfold TelemetryCommandHandler.handle_record_counter
      by_cases hmem : command.name ∈ h.counters <;>
        simp [hi, hm, hmem, hnd, List.nodup_append]
  · intro command
    refine ⟨?_, ?_, ?_⟩
    · intro hmem
      unfold TelemetryCommandHandler.handle_record_gauge
      simp [hi, hm, hmem, Event.isInstrumentCreation, toString]
    · intro hmem
      unfold TelemetryCommandHandler.handle_record_gauge
      simp [hi, hm, hmem, Event.isInstrumentCreation, toString]
    · intro hnd
      unfold TelemetryCommandHandler.handle_record_gauge
      by_cases hmem : command.name ∈ h.gauges <;>
        simp [hi, hm, hmem, hnd, List.nodup_append]
  · intro command
    refine ⟨?_, ?_, ?_⟩
    · intro hmem
      unfold TelemetryCommandHandler.handle_record_histogram
      simp [hi, hm, hmem, Event.isInstrumentCreation, toString]
    · intro hmem
      unfold TelemetryCommandHandler.handle_record_histogram
      simp [hi, hm, hmem, Event.isInstrumentCreation, toString]
    · intro hnd
      unfold TelemetryCommandHandler.handle_record_histogram
      by_cases hmem : command.name ∈ h.histograms <;>
        simp [hi, hm, hmem, hnd, List.nodup_append]

/-- Witness for C7: a ready handler whose counter cache already holds
"x": recording "x" again creates nothing and keeps the cache. -/
theorem C7_instrument_cache_reuse_witness :
    (TelemetryCommandHandler.handle_record_counter { name := "x", value := 1 }
        { initialized := true, meter := true,
          counters := ["x"] }).2.1.counters = ["x"] ∧
    (TelemetryCommandHandler.handle_record_counter { name := "x", value := 1 }
        { initialized := true, meter := true,
          counters := ["x"] }).2.2.filter Event.isInstrumentCreation = [] := by
  have h := (C7_instrument_cache_reuse
    { initialized := true, meter := true, counters := ["x"] } rfl rfl).1
    { name := "x", value := 1 }
  exact (h.2.1 (by decide))

/-! ## C3 infrastructure: states reachable while uninitialized -/

theorem handle_initialize_state (env : InitEnv) (now : Nat)
    (command : InitializeSDKCommand) (h : TelemetryCommandHandler) :
    (h.handle_initialize env now command).2.1.active_spans = h.active_spans ∧
    ((h.handle_initialize env now command).2.1.initialized = false →
      h.initialized = false) := by
  unfold TelemetryCommandHandler.handle_initialize
  unfold TelemetryCommandHandler.init_tracer TelemetryCommandHandler.init_meter
  by_cases hi : h.initialized <;>
    cases hf : env.factory_init_raises <;>
    cases hr : env.create_resource_raises <;>
    cases ht : env.create_trace_exporter_raises <;>
    cases hm : env.create_metric_exporter_raises <;>
    cases het : command.config.enable_traces <;>
    cases hem : command.config.enable_metrics <;>
    simp_all

theorem handle_emit_batch_logs_state (env : LogEnv)
    (logs : List EmitLogCommand) (h : TelemetryCommandHandler) :
    (h.handle_emit_batch_logs env logs).2.1.active_spans = h.active_spans ∧
    (h.handle_emit_batch_logs env logs).2.1.initialized = h.initialized := by
  induction logs generalizing h with
  | nil => exact ⟨rfl, rfl⟩
  | cons c rest ih =>
    unfold TelemetryCommandHandler.handle_emit_batch_logs
    have hone : (h.handle_emit_log env c).2.1.active_spans = h.active_spans ∧
        (h.handle_emit_log env c).2.1.initialized = h.initialized := by
      unfold TelemetryCommandHandler.handle_emit_log
      by_cases hi : h.initialized <;> simp [hi]
    have h2 := ih (h.handle_emit_log env c).2.1
    simp only []
    constructor
    · rw [h2.1, hone.1]
    · rw [h2.2, hone.2]

theorem reachable_uninitialized_empty_spans (h : TelemetryCommandHandler)
    (hr : Reachable h) : h.initialized = false → h.active_spans = [] := by
  induction hr with
  | base => intro; rfl
  | step h0 env command hr0 ih =>
    intro hi
    cases command with
    | initializeSDK c =>
      have hs := handle_initialize_state env.init env.now c h0
      simp only [TelemetryCommandHandler.handle] at hi ⊢
      rw [hs.1]
      exact ih (hs.2 hi)
    | shutdownSDK c =>
      simp only [TelemetryCommandHandler.handle] at hi ⊢
      by_cases h0i : h0.initialized
      · unfold TelemetryCommandHandler.handle_shutdown
        cases env.shutdownEnv.tracer_flush_raises <;>
          cases env.shutdownEnv.tracer_shutdown_raises <;>
          cases env.shutdownEnv.meter_shutdown_raises <;>
          by_cases htp : h0.tracer_provider <;>
          by_cases hmp : h0.meter_provider <;>
          simp [h0i, htp, hmp]
      · rw [handle_shutdown_noop _ _ _ (by simpa using h0i)]
        exact ih (by simpa using h0i)
    | flushTelemetry c =>
      simp only [TelemetryCommandHandler.handle] at hi ⊢
      unfold TelemetryCommandHandler.handle_flush at hi ⊢
      by_cases h0i : h0.initialized <;>
        cases hf1 : env.flushEnv.tracer_flush_raises <;>
        cases hf2 : env.flushEnv.meter_flush_raises <;>
        by_cases htp : h0.tracer_provider <;>
        by_cases hmp : h0.meter_provider <;>
        simp_all
    | recordMetric c =>
      simp only [TelemetryCommandHandler.handle] at hi ⊢
      unfold TelemetryCommandHandler.handle_record_metric
        TelemetryCommandHandler.handle_record_gauge at hi ⊢
      by_cases h0i : h0.initialized <;> by_cases h0m : h0.meter <;>
        by_cases hn : c.name = "" <;>
        by_cases hg : c.name ∈ h0.gauges <;>
        simp_all [RecordGaugeCommand.mk?]
    | recordCounter c =>
      simp only [TelemetryCommandHandler.handle] at hi ⊢
      unfold TelemetryCommandHandler.handle_record_counter at hi ⊢
      by_cases h0i : h0.initialized <;> by_cases h0m : h0.meter <;>
        by_cases hg : c.name ∈ h0.counters <;> simp_all
    | recordGauge c =>
      simp only [TelemetryCommandHandler.handle] at hi ⊢
      unfold TelemetryCommandHandler.handle_record_gauge at hi ⊢
      by_cases h0i : h0.initialized <;> by_cases h0m : h0.meter <;>
        by_cases hg : c.name ∈ h0.gauges <;> simp_all
    | recordHistogram c =>
      simp only [TelemetryCommandHandler.handle] at hi ⊢
      unfold TelemetryCommandHandler.handle_record_histogram at hi ⊢
      by_cases h0i : h0.initialized <;> by_cases h0m : h0.meter <;>
        by_cases hg : c.name ∈ h0.histograms <;> simp_all
    | emitLog c =>
      simp only [TelemetryCommandHandler.handle] at hi ⊢
      unfold TelemetryCommandHandler.handle_emit_log at hi ⊢
      by_cases h0i : h0.initialized <;> simp_all
    | emitBatchLogs c =>
      have hs := handle_emit_batch_logs_state env.log c.logs h0
      simp only [TelemetryCommandHandler.handle] at hi ⊢
      rw [hs.1]
      rw [hs.2] at hi
      exact ih hi
    | startSpan c =>
      simp only [TelemetryCommandHandler.handle] at hi ⊢
      unfold TelemetryCommandHandler.handle_start_span at hi ⊢
      by_cases h0i : h0.initialized <;> by_cases h0t : h0.tracer <;> simp_all
    | endSpan c =>
      simp only [TelemetryCommandHandler.handle] at hi ⊢
      rw [handle_end_span_eq] at hi ⊢
      simp only [] at hi ⊢
      have h0i : h0.initialized = false := hi
      rw [ih h0i]
      rfl
    | addSpanEvent c =>
      simp only [TelemetryCommandHandler.handle] at hi ⊢
      unfold TelemetryCommandHandler.handle_add_span_event at hi ⊢
      cases hg : listGet c.span_id h0.active_spans <;> simp_all

/-! ## C3 — strict facade, lenient core -/

/-- C3: while not initialized, every recording/span/flush operation
through the public facade raises `NotInitializedError` (before any command
is even constructed) and leaves the client untouched, whereas handing the
corresponding validly-constructed command to the session-core handler
directly is a silent no-op: it raises nothing and leaves all core state —
counters, caches, registries — unchanged (handlers with no initialized
check, `end_span`/`add_span_event`, find the registry empty in every
reachable uninitialized state). -/
theorem C3_facade_strict_core_lenient :
    (∀ (c : TelemetryFlowClient), c.initialized = false →
      ∀ (env : Env) (name span_id message unit : String) (value : Rat)
        (ivalue : Int) (attributes : List (String × PyVal))
        (severity : SeverityLevel) (kind : SpanKind) (err : Option String),
        TelemetryFlowClient.record_metric name value unit attributes c =
          (notInitializedFailure Unit, c, []) ∧
        TelemetryFlowClient.increment_counter name ivalue attributes c =
          (notInitializedFailure Unit, c, []) ∧
        TelemetryFlowClient.record_gauge name value attributes c =
          (notInitializedFailure Unit, c, []) ∧
        TelemetryFlowClient.record_histogram name value unit attributes c =
          (notInitializedFailure Unit, c, []) ∧
        TelemetryFlowClient.log env message severity attributes c =
          (notInitializedFailure Unit, c, []) ∧
        TelemetryFlowClient.start_span env name kind attributes c =
          (notInitializedFailure String, c, []) ∧
        TelemetryFlowClient.end_span span_id err c =
          (notInitializedFailure Unit, c, []) ∧
        TelemetryFlowClient.add_span_event span_id name attributes c =
          (notInitializedFailure Unit, c, []) ∧
        TelemetryFlowClient.flush env c = (notInitializedFailure Unit, c, [])) ∧
    (∀ h : TelemetryCommandHandler, Reachable h → h.initialized = false →
      ∀ (env : Env) (mc : RecordMetricCommand) (cc : RecordCounterCommand)
        (gc : RecordGaugeCommand) (hc : RecordHistogramCommand)
        (lc : EmitLogCommand) (sc : StartSpanCommand) (ec : EndSpanCommand)
        (ac : AddSpanEventCommand) (fc : FlushTelemetryCommand),
        h.handle_record_metric mc = (Except.ok (), h, []) ∧
        h.handle_record_counter cc = (Except.ok (), h, []) ∧
        h.handle_record_gauge gc = (Except.ok (), h, []) ∧
        h.handle_record_histogram hc = (Except.ok (), h, []) ∧
        h.handle_emit_log env.log lc = (Except.ok (), h, []) ∧
        h.handle_start_span env.span sc = (Except.ok "", h, []) ∧
        ((h.handle_end_span ec).1 = Except.ok () ∧
         (h.handle_end_span ec).2.1 = h) ∧
        ((h.handle_add_span_event ac).1 = Except.ok () ∧
         (h.handle_add_span_event ac).2.1 = h) ∧
        h.handle_flush env.flushEnv fc = (Except.ok (), h, [])) := by
  constructor
  · intro c hc env name span_id message unit value ivalue attributes severity kind err
    refine ⟨?_, ?_, ?_, ?_, ?_, ?_, ?_, ?_, ?_⟩ <;>
      simp [TelemetryFlowClient.record_metric,
        TelemetryFlowClient.increment_counter, TelemetryFlowClient.record_gauge,
        TelemetryFlowClient.record_histogram, TelemetryFlowClient.log,
        TelemetryFlowClient.start_span, TelemetryFlowClient.end_span,
        TelemetryFlowClient.add_span_event, TelemetryFlowClient.flush,
        TelemetryFlowClient.ensure_initialized, hc, notInitializedFailure]
  · intro h hr hi env mc cc gc hc lc sc ec ac fc
    have hs : h.active_spans = [] := reachable_uninitialized_empty_spans h hr hi
    have hg : ∀ sid, listGet sid h.active_spans = (none : Option StartedSpan) := by
      intro sid
      rw [hs]
      rfl
    refine ⟨?_, ?_, ?_, ?_, ?_, ?_, ⟨?_, ?_⟩, ⟨?_, ?_⟩, ?_⟩
    · unfold TelemetryCommandHandler.handle_record_metric
      simp [hi]
    · unfold TelemetryCommandHandler.handle_record_counter
      simp [hi]
    · unfold TelemetryCommandHandler.handle_record_gauge
      simp [hi]
    · unfold TelemetryCommandHandler.handle_record_histogram
      simp [hi]
    · unfold TelemetryCommandHandler.handle_emit_log
      simp [hi]
    · unfold TelemetryCommandHandler.handle_start_span
      simp [hi]
    · rw [handle_end_span_eq]
    · rw [handle_end_span_eq]
      show { h with active_spans := listErase ec.span_id h.active_spans } = h
      rw [listErase_of_get_none _ _ (hg ec.span_id)]
    · unfold TelemetryCommandHandler.handle_add_span_event
      simp [hg ac.span_id]
    · unfold TelemetryCommandHandler.handle_add_span_event
      simp [hg ac.span_id]
    · unfold TelemetryCommandHandler.handle_flush
      simp [hi]

/-- Witness for C3: `increment_counter` on a fresh client fails with
`NotInitializedError`; the same command handed to a fresh core handler is
a silent no-op. -/
theorem C3_facade_strict_core_lenient_witness :
    TelemetryFlowClient.increment_counter "req" 1 []
        { config := { endpoint := "e", service_name := "s" } } =
      (notInitializedFailure Unit,
       { config := { endpoint := "e", service_name := "s" } }, []) ∧
    TelemetryCommandHandler.handle_record_counter { name := "req", value := 1 }
        {} = (Except.ok (), {}, []) := by
  have hf := (C3_facade_strict_core_lenient).1
    { config := { endpoint := "e", service_name := "s" } } rfl
    {} "req" "sid" "msg" "" 1 1 [] SeverityLevel.info SpanKind.internal none
  have hcore := (C3_facade_strict_core_lenient).2 {} Reachable.base rfl
    {} { name := "m" } { name := "req", value := 1 } { name := "g" }
    { name := "h" } { message := "m" } { name := "s" } { span_id := "x" }
    { span_id := "x", name := "e" } {}
  exact ⟨hf.2.1, hcore.2.1⟩

end TelemetryFlow
